import Mathlib

/-!
Shallow embedding of `src/server.js` (peer-pulse-presentation backend).

The server is an Express application that dispatches incoming events on
POST /api/upload, persists `Evaluation` records in MongoDB, broadcasts
events on a single Pusher channel named "presentation", and exposes a
grouping endpoint GET /feedbacks plus a GET /health liveness check.

JavaScript values appearing in request bodies, stored records and
broadcast payloads are modelled by the JSON-like type `JsValue`, with
property access (`getProp`) following JavaScript semantics: reading a
property of `null` or `undefined` throws a TypeError, a missing property
of an object reads as `undefined`, and `length` works on arrays and
strings.

External effects (the MongoDB connection/queries and the Pusher
broadcasts) are modelled by an oracle `Env` of success flags plus a
clock; the handlers thread an explicit database state and accumulate the
lists of broadcasts and of record-level database calls they issue, so
that claims about "exactly one broadcast" or "no persistence call" are
statable.
-/

/-- JavaScript/JSON values as they occur in request bodies, stored
records and broadcast payloads. `undef` is JavaScript `undefined`
(a read of a missing object property). -/
inductive JsValue where
  | null : JsValue
  | undef : JsValue
  | str : String → JsValue
  | num : Int → JsValue
  | obj : List (String × JsValue) → JsValue
  | arr : List JsValue → JsValue

mutual
/-- Decidable equality on `JsValue` (written by hand because automatic
derivation does not handle the nested lists). -/
def jsDecEq : (a b : JsValue) → Decidable (a = b)
  | JsValue.null, JsValue.null => Decidable.isTrue rfl
  | JsValue.undef, JsValue.undef => Decidable.isTrue rfl
  | JsValue.str s, JsValue.str t =>
      if h : s = t then Decidable.isTrue (by rw [h])
      else Decidable.isFalse (by intro hc; injection hc with h1; exact h h1)
  | JsValue.num m, JsValue.num n =>
      if h : m = n then Decidable.isTrue (by rw [h])
      else Decidable.isFalse (by intro hc; injection hc with h1; exact h h1)
  | JsValue.obj fs, JsValue.obj gs =>
      match jsDecEqFields fs gs with
      | Decidable.isTrue h => Decidable.isTrue (by rw [h])
      | Decidable.isFalse h =>
          Decidable.isFalse (by intro hc; injection hc with h1; exact h h1)
  | JsValue.arr xs, JsValue.arr ys =>
      match jsDecEqList xs ys with
      | Decidable.isTrue h => Decidable.isTrue (by rw [h])
      | Decidable.isFalse h =>
          Decidable.isFalse (by intro hc; injection hc with h1; exact h h1)
  | JsValue.null, JsValue.undef | JsValue.null, JsValue.str _ | JsValue.null, JsValue.num _
  | JsValue.null, JsValue.obj _ | JsValue.null, JsValue.arr _
  | JsValue.undef, JsValue.null | JsValue.undef, JsValue.str _ | JsValue.undef, JsValue.num _
  | JsValue.undef, JsValue.obj _ | JsValue.undef, JsValue.arr _
  | JsValue.str _, JsValue.null | JsValue.str _, JsValue.undef | JsValue.str _, JsValue.num _
  | JsValue.str _, JsValue.obj _ | JsValue.str _, JsValue.arr _
  | JsValue.num _, JsValue.null | JsValue.num _, JsValue.undef | JsValue.num _, JsValue.str _
  | JsValue.num _, JsValue.obj _ | JsValue.num _, JsValue.arr _
  | JsValue.obj _, JsValue.null | JsValue.obj _, JsValue.undef | JsValue.obj _, JsValue.str _
  | JsValue.obj _, JsValue.num _ | JsValue.obj _, JsValue.arr _
  | JsValue.arr _, JsValue.null | JsValue.arr _, JsValue.undef | JsValue.arr _, JsValue.str _
  | JsValue.arr _, JsValue.num _ | JsValue.arr _, JsValue.obj _ =>
      Decidable.isFalse (by intro hc; exact JsValue.noConfusion hc)

/-- Decidable equality on object field lists. -/
def jsDecEqFields : (a b : List (String × JsValue)) → Decidable (a = b)
  | [], [] => Decidable.isTrue rfl
  | [], _ :: _ => Decidable.isFalse (by intro hc; exact List.noConfusion hc)
  | _ :: _, [] => Decidable.isFalse (by intro hc; exact List.noConfusion hc)
  | (k, v) :: as, (l, w) :: bs =>
      if h1 : k = l then
        match jsDecEq v w with
        | Decidable.isTrue h2 =>
            match jsDecEqFields as bs with
            | Decidable.isTrue h3 => Decidable.isTrue (by rw [h1, h2, h3])
            | Decidable.isFalse h3 =>
                Decidable.isFalse (by intro hc; injection hc with hh ht; exact h3 ht)
        | Decidable.isFalse h2 =>
            Decidable.isFalse (by
              intro hc; injection hc with hh ht; exact h2 (congrArg Prod.snd hh))
      else
        Decidable.isFalse (by
          intro hc; injection hc with hh ht; exact h1 (congrArg Prod.fst hh))

/-- Decidable equality on value lists. -/
def jsDecEqList : (a b : List JsValue) → Decidable (a = b)
  | [], [] => Decidable.isTrue rfl
  | [], _ :: _ => Decidable.isFalse (by intro hc; exact List.noConfusion hc)
  | _ :: _, [] => Decidable.isFalse (by intro hc; exact List.noConfusion hc)
  | v :: as, w :: bs =>
      match jsDecEq v w with
      | Decidable.isTrue h2 =>
          match jsDecEqList as bs with
          | Decidable.isTrue h3 => Decidable.isTrue (by rw [h2, h3])
          | Decidable.isFalse h3 =>
              Decidable.isFalse (by intro hc; injection hc with hh ht; exact h3 ht)
      | Decidable.isFalse h2 =>
          Decidable.isFalse (by intro hc; injection hc with hh ht; exact h2 hh)
end

instance : DecidableEq JsValue := jsDecEq

/-- Errors a request handler can throw: a TypeError from reading a
property of `null`/`undefined`, or a failure of an external operation
(MongoDB connect/create/find, Pusher trigger). -/
inductive JsError where
  | typeError : JsError
  | opError : JsError
deriving DecidableEq

/-- Field lookup in an object literal: first binding of the key, or
`undefined` when the key is absent. -/
def lookupField : List (String × JsValue) → String → JsValue
  | [], _ => JsValue.undef
  | (k, v) :: rest, key => if k = key then v else lookupField rest key

/-- JavaScript property access `v[key]`: throws a TypeError on
`null`/`undefined`, reads fields of objects, and supports `length` on
arrays and strings. Other primitive receivers yield `undefined`. -/
def getProp : JsValue → String → Except JsError JsValue
  | JsValue.null, _ => Except.error JsError.typeError
  | JsValue.undef, _ => Except.error JsError.typeError
  | JsValue.obj fields, key => Except.ok (lookupField fields key)
  | JsValue.arr elems, key =>
      Except.ok (if key = "length" then JsValue.num elems.length else JsValue.undef)
  | JsValue.str s, key =>
      Except.ok (if key = "length" then JsValue.num s.length else JsValue.undef)
  | JsValue.num _, _ => Except.ok JsValue.undef

mutual
/-- JavaScript string coercion of a value when used as an object key
(`acc[evaluation.teamName]`) or interpolated into a template literal. -/
def jsToKey : JsValue → String
  | JsValue.str s => s
  | JsValue.num n => toString n
  | JsValue.null => "null"
  | JsValue.undef => "undefined"
  | JsValue.obj _ => "[object Object]"
  | JsValue.arr es => jsKeyList es

/-- Array-to-string coercion: elements joined by commas. -/
def jsKeyList : List JsValue → String
  | [] => ""
  | [v] => jsToKey v
  | v :: vs => jsToKey v ++ "," ++ jsKeyList vs
end

/-- Fields spread by `{...data, ...}`: an object contributes its
fields, an array or string contributes index-keyed entries, and other
primitives contribute nothing. -/
def spreadFields : JsValue → List (String × JsValue)
  | JsValue.obj fields => fields
  | JsValue.arr es => (List.range es.length).zip es |>.map fun p => (toString p.1, p.2)
  | JsValue.str s =>
      (List.range s.length).zip s.data |>.map fun p => (toString p.1, JsValue.str (String.mk [p.2]))
  | _ => []

/-- A stored `Evaluation` document (mongoose model from `server.js`):
`id` models the store-assigned `_id`, the remaining fields are taken
from the submission payload, and `submittedAt` is the creation-time
clock value (`new Date()`). -/
structure Evaluation where
  id : Nat
  teamName : JsValue
  evaluatorUSN : JsValue
  ratings : JsValue
  feedback : JsValue
  submittedAt : Nat
deriving DecidableEq

/-- JSON serialization of a stored evaluation document as it appears in
the `teamEvaluations` broadcast payload. -/
def Evaluation.toJs (e : Evaluation) : JsValue :=
  JsValue.obj [("_id", JsValue.num e.id), ("teamName", e.teamName),
    ("evaluatorUSN", e.evaluatorUSN), ("ratings", e.ratings),
    ("feedback", e.feedback), ("submittedAt", JsValue.num e.submittedAt)]

/-- The document-store state: the stored evaluations in insertion
order, the next store-assigned id, and the mongoose connection
`readyState` (0 = disconnected, 1 = connected, 2 = connecting). -/
structure DbState where
  evaluations : List Evaluation
  nextId : Nat
  readyState : Nat
deriving DecidableEq

/-- A record-level or connection-level database call issued while
handling a request. -/
inductive DbOp where
  | connect : DbOp
  | create : DbOp
  | find : DbOp
deriving DecidableEq

/-- One Pusher broadcast: channel, event name, payload. -/
structure Broadcast where
  channel : String
  event : String
  payload : JsValue
deriving DecidableEq

/-- An HTTP response: status code and JSON body. -/
structure Response where
  status : Nat
  body : JsValue
deriving DecidableEq

/-- Oracle for the external services: whether each external operation
the handler may issue succeeds, and the current clock (`Date.now`). -/
structure Env where
  connectOk : Bool
  createOk : Bool
  findOk : Bool
  triggerRelayOk : Bool
  triggerEvalOk : Bool
  triggerTeamOk : Bool
  now : Nat
deriving DecidableEq

/-- The `connectDB` helper of `server.js`: when `readyState` is 0 it
attempts `mongoose.connect` (recorded as a `DbOp.connect`), which
either moves the connection to state 1 or throws; otherwise it does
nothing. -/
def connectDB (env : Env) (db : DbState) : Except JsError DbState × List DbOp :=
  if db.readyState = 0 then
    if env.connectOk then
      (Except.ok { db with readyState := 1 }, [DbOp.connect])
    else
      (Except.error JsError.opError, [DbOp.connect])
  else
    (Except.ok db, [])

/-- `Evaluation.create`: appends a new document built from the given
fields, with the next store id and the current clock as `submittedAt`;
fails when the oracle says the store call fails. -/
def evaluationCreate (env : Env) (db : DbState)
    (teamName evaluatorUSN ratings feedback : JsValue) :
    Except JsError (Evaluation × DbState) :=
  if env.createOk then
    let e : Evaluation :=
      { id := db.nextId, teamName := teamName, evaluatorUSN := evaluatorUSN,
        ratings := ratings, feedback := feedback, submittedAt := env.now }
    Except.ok (e, { db with evaluations := db.evaluations ++ [e], nextId := db.nextId + 1 })
  else
    Except.error JsError.opError

/-- `Evaluation.find({ teamName })`: all stored documents whose
`teamName` equals the given value, in insertion order. -/
def evaluationFind (env : Env) (db : DbState) (team : JsValue) :
    Except JsError (List Evaluation) :=
  if env.findOk then
    Except.ok (db.evaluations.filter fun e => e.teamName == team)
  else
    Except.error JsError.opError

/-- `Evaluation.find({})`: all stored documents in insertion order. -/
def evaluationFindAll (env : Env) (db : DbState) : Except JsError (List Evaluation) :=
  if env.findOk then Except.ok db.evaluations else Except.error JsError.opError

/-- `pusher.trigger`: produces the broadcast, or fails when the oracle
says the broker call fails. -/
def pusherTrigger (ok : Bool) (channel event : String) (payload : JsValue) :
    Except JsError Broadcast :=
  if ok then Except.ok { channel := channel, event := event, payload := payload }
  else Except.error JsError.opError

/-- Body of the generic success response of POST /api/upload. -/
def successBody : JsValue :=
  JsValue.obj [("message", JsValue.str "Event processed successfully")]

/-- Body of the 400 response for an unrecognized event name. -/
def invalidEventBody : JsValue :=
  JsValue.obj [("message", JsValue.str "Invalid event type")]

/-- Body of the 500 response produced by the catch block. -/
def internalErrorBody : JsValue :=
  JsValue.obj [("message", JsValue.str "Internal server error")]

/-- The six simple relay event names of the switch in the upload
handler (they share one `pusher.trigger` call and no persistence). -/
def relayEvents : List String :=
  ["presentationStarting", "presentationStarted", "presentationEnded",
   "timeSync", "evaluationForm", "presentationReset"]

instance {ε α : Type} [DecidableEq ε] [DecidableEq α] : DecidableEq (Except ε α) := fun x y =>
  match x, y with
  | Except.ok a, Except.ok b =>
      if h : a = b then Decidable.isTrue (by rw [h])
      else Decidable.isFalse (by intro hc; injection hc with h1; exact h h1)
  | Except.error a, Except.error b =>
      if h : a = b then Decidable.isTrue (by rw [h])
      else Decidable.isFalse (by intro hc; injection hc with h1; exact h h1)
  | Except.ok _, Except.error _ => Decidable.isFalse (by intro hc; exact Except.noConfusion hc)
  | Except.error _, Except.ok _ => Decidable.isFalse (by intro hc; exact Except.noConfusion hc)

/-- Intermediate result of a request handler body before the catch
block is applied: either a response or a thrown error, together with
the database state, broadcasts and database calls accumulated up to
that point (effects performed before a throw are kept). -/
structure AuxResult where
  outcome : Except JsError Response
  db : DbState
  broadcasts : List Broadcast
  dbCalls : List DbOp
deriving DecidableEq

/-- Final result of a request: response, database state after the
request, broadcasts issued and database calls issued. -/
structure HandlerResult where
  response : Response
  db : DbState
  broadcasts : List Broadcast
  dbCalls : List DbOp
deriving DecidableEq

/-- The `case 'evaluationSubmitted'` branch of the upload switch:
read `data.team`, `data.evaluator`, `data.evaluation.ratings`,
`data.evaluation.feedback` (each read can throw a TypeError), create
the document, broadcast `evaluationSubmitted` with the payload spread
plus the stored id, query the team's documents, broadcast
`teamEvaluations`. -/
def handleEvaluationSubmitted (env : Env) (db : DbState) (data : JsValue) : AuxResult :=
  match getProp data "team" with
  | Except.error e => ⟨Except.error e, db, [], []⟩
  | Except.ok team =>
  match getProp data "evaluator" with
  | Except.error e => ⟨Except.error e, db, [], []⟩
  | Except.ok evaluator =>
  match getProp data "evaluation" with
  | Except.error e => ⟨Except.error e, db, [], []⟩
  | Except.ok evalObj =>
  match getProp evalObj "ratings" with
  | Except.error e => ⟨Except.error e, db, [], []⟩
  | Except.ok ratings =>
  match getProp evalObj "feedback" with
  | Except.error e => ⟨Except.error e, db, [], []⟩
  | Except.ok feedback =>
  match evaluationCreate env db team evaluator ratings feedback with
  | Except.error e => ⟨Except.error e, db, [], [DbOp.create]⟩
  | Except.ok (evaluation, db1) =>
  match pusherTrigger env.triggerEvalOk "presentation" "evaluationSubmitted"
      (JsValue.obj (spreadFields data ++ [("evaluationId", JsValue.num evaluation.id)])) with
  | Except.error e => ⟨Except.error e, db1, [], [DbOp.create]⟩
  | Except.ok b1 =>
  match evaluationFind env db1 team with
  | Except.error e => ⟨Except.error e, db1, [b1], [DbOp.create, DbOp.find]⟩
  | Except.ok teamEvaluations =>
  match pusherTrigger env.triggerTeamOk "presentation" "teamEvaluations"
      (JsValue.obj [("team", team),
        ("evaluations", JsValue.arr (teamEvaluations.map Evaluation.toJs))]) with
  | Except.error e => ⟨Except.error e, db1, [b1], [DbOp.create, DbOp.find]⟩
  | Except.ok b2 =>
      ⟨Except.ok ⟨200, successBody⟩, db1, [b1, b2], [DbOp.create, DbOp.find]⟩

/-- The `switch (event)` of the upload handler: relay events trigger
one verbatim broadcast, `evaluationSubmitted` runs the
persist-then-broadcast sequence, anything else answers 400. Only
string events can match a case label. -/
def dispatchEvent (env : Env) (db : DbState) (event data : JsValue) : AuxResult :=
  match event with
  | JsValue.str s =>
      if relayEvents.contains s then
        match pusherTrigger env.triggerRelayOk "presentation" s data with
        | Except.error e => ⟨Except.error e, db, [], []⟩
        | Except.ok b => ⟨Except.ok ⟨200, successBody⟩, db, [b], []⟩
      else if s = "evaluationSubmitted" then
        handleEvaluationSubmitted env db data
      else
        ⟨Except.ok ⟨400, invalidEventBody⟩, db, [], []⟩
  | _ => ⟨Except.ok ⟨400, invalidEventBody⟩, db, [], []⟩

/-- The body of the upload handler after the connection step:
destructure `{event, data, type}` from the request body, answer the
bulk (`participants`/`teams`) acknowledgment when the type
discriminator is present (reading `data.length` can throw), otherwise
dispatch on the event name. -/
def handleUploadBody (env : Env) (db : DbState) (body : JsValue) : AuxResult :=
  match getProp body "event" with
  | Except.error e => ⟨Except.error e, db, [], []⟩
  | Except.ok event =>
  match getProp body "data" with
  | Except.error e => ⟨Except.error e, db, [], []⟩
  | Except.ok data =>
  match getProp body "type" with
  | Except.error e => ⟨Except.error e, db, [], []⟩
  | Except.ok ty =>
  if ty == JsValue.str "participants" || ty == JsValue.str "teams" then
    match getProp data "length" with
    | Except.error e => ⟨Except.error e, db, [], []⟩
    | Except.ok len =>
        ⟨Except.ok ⟨200, JsValue.obj
          [("message", JsValue.str ("Successfully processed " ++ jsToKey ty ++ " upload")),
           ("count", len)]⟩, db, [], []⟩
  else
    dispatchEvent env db event data

/-- The upload handler body including the initial `await connectDB()`:
a connection failure throws before the request body is examined. -/
def handleUploadAux (env : Env) (db0 : DbState) (body : JsValue) : AuxResult :=
  match connectDB env db0 with
  | (Except.error e, ops) => ⟨Except.error e, db0, [], ops⟩
  | (Except.ok db, ops) =>
      let r := handleUploadBody env db body
      ⟨r.outcome, r.db, r.broadcasts, ops ++ r.dbCalls⟩

/-- POST /api/upload: the handler body wrapped in the try/catch — any
thrown error becomes a 500 "Internal server error" response, keeping
whatever effects already happened. -/
def handleUpload (env : Env) (db : DbState) (body : JsValue) : HandlerResult :=
  let r := handleUploadAux env db body
  match r.outcome with
  | Except.ok resp => ⟨resp, r.db, r.broadcasts, r.dbCalls⟩
  | Except.error _ => ⟨⟨500, internalErrorBody⟩, r.db, r.broadcasts, r.dbCalls⟩

/-- One entry of the GET /feedbacks response: the projection of a
stored evaluation pushed by the reduce in the feedbacks handler. -/
structure FeedbackEntry where
  evaluatorUSN : JsValue
  ratings : JsValue
  feedback : JsValue
  submittedAt : Nat
deriving DecidableEq

/-- The projection applied to each document by the feedbacks reduce. -/
def entryOf (e : Evaluation) : FeedbackEntry :=
  { evaluatorUSN := e.evaluatorUSN, ratings := e.ratings,
    feedback := e.feedback, submittedAt := e.submittedAt }

/-- The object key under which a document is grouped:
`acc[evaluation.teamName]` coerces the team name to a string. -/
def keyOf (e : Evaluation) : String := jsToKey e.teamName

/-- Property names a plain JavaScript object literal `{}` inherits
from `Object.prototype` (including the Annex B accessors present in
Node): reading any of them on the accumulator yields a truthy
inherited function or object even though no own key exists. -/
def protoKeys : List String :=
  ["constructor", "hasOwnProperty", "isPrototypeOf", "propertyIsEnumerable",
   "toLocaleString", "toString", "valueOf", "__defineGetter__", "__defineSetter__",
   "__lookupGetter__", "__lookupSetter__", "__proto__"]

/-- One step of the reduce in the feedbacks handler. The guard
`if (!acc[teamName])` tests truthiness of the property read, which
sees inherited `Object.prototype` members: when the key is an own key
its bucket (a truthy array) is pushed to; when the key is inherited
from the prototype the initialization is skipped and
`acc[teamName].push` throws a TypeError (the inherited value has no
`push`); otherwise the read is `undefined`, the bucket is created and
pushed to. The accumulator object is modelled as an association list
in key-creation order. -/
def feedbackStep (acc : List (String × List FeedbackEntry)) (e : Evaluation) :
    Except JsError (List (String × List FeedbackEntry)) :=
  if acc.any fun p => p.1 = keyOf e then
    Except.ok (acc.map fun p => if p.1 = keyOf e then (p.1, p.2 ++ [entryOf e]) else p)
  else if protoKeys.contains (keyOf e) then
    Except.error JsError.typeError
  else
    Except.ok (acc ++ [(keyOf e, [entryOf e])])

/-- The reduce of the feedbacks handler: fold the step over the
documents, propagating a thrown TypeError. -/
def groupFold (acc : List (String × List FeedbackEntry)) :
    List Evaluation → Except JsError (List (String × List FeedbackEntry))
  | [] => Except.ok acc
  | e :: rest =>
      match feedbackStep acc e with
      | Except.error err => Except.error err
      | Except.ok acc2 => groupFold acc2 rest

/-- The grouping object built by GET /feedbacks from the list of all
stored documents, or the TypeError thrown when a team name collides
with an inherited `Object.prototype` property. -/
def groupedFeedbacks (evals : List Evaluation) :
    Except JsError (List (String × List FeedbackEntry)) :=
  groupFold [] evals

/-- JSON serialization of one grouped entry. -/
def FeedbackEntry.toJs (f : FeedbackEntry) : JsValue :=
  JsValue.obj [("evaluatorUSN", f.evaluatorUSN), ("ratings", f.ratings),
    ("feedback", f.feedback), ("submittedAt", JsValue.num f.submittedAt)]

/-- JSON serialization of the grouping object. -/
def feedbacksToJs (g : List (String × List FeedbackEntry)) : JsValue :=
  JsValue.obj (g.map fun p => (p.1, JsValue.arr (p.2.map FeedbackEntry.toJs)))

/-- GET /feedbacks: connect, fetch all documents, group them by team
name, answer 200 with the grouping; any thrown error (connection,
query, or the reduce's TypeError) answers 500. -/
def handleFeedbacks (env : Env) (db0 : DbState) : HandlerResult :=
  match connectDB env db0 with
  | (Except.error _, ops) => ⟨⟨500, internalErrorBody⟩, db0, [], ops⟩
  | (Except.ok db, ops) =>
      match evaluationFindAll env db with
      | Except.error _ => ⟨⟨500, internalErrorBody⟩, db, [], ops ++ [DbOp.find]⟩
      | Except.ok evals =>
          match groupedFeedbacks evals with
          | Except.error _ => ⟨⟨500, internalErrorBody⟩, db, [], ops ++ [DbOp.find]⟩
          | Except.ok g => ⟨⟨200, feedbacksToJs g⟩, db, [], ops ++ [DbOp.find]⟩

/-- HTTP methods used by the routes of `server.js`. -/
inductive Method where
  | get : Method
  | post : Method
deriving DecidableEq

/-- An HTTP request: method, path and parsed JSON body. -/
structure Request where
  method : Method
  path : String
  body : JsValue
deriving DecidableEq

/-- Body of the liveness placeholders GET /api/test and GET /api/. -/
def helloBody : JsValue := JsValue.obj [("message", JsValue.str "Hello World")]

/-- Body of the GET /health response. -/
def healthBody : JsValue := JsValue.obj [("status", JsValue.str "ok")]

/-- The route table of the Express app. The pusher-auth token, the
metrics exposition text and the static bundle contents are produced by
external libraries (pusher, prom-client, the filesystem) and are
abstracted as fixed placeholder bodies; those three routes issue no evaluation
database call and no channel broadcast. Unmatched GET requests fall
back to the single-page entry document; unmatched non-GET requests get
the framework 404. -/
def handleRequest (env : Env) (db : DbState) (req : Request) : HandlerResult :=
  match req.method, req.path with
  | Method.post, "/api/upload" => handleUpload env db req.body
  | Method.get, "/api/test" => ⟨⟨200, helloBody⟩, db, [], []⟩
  | Method.get, "/api/" => ⟨⟨200, helloBody⟩, db, [], []⟩
  | Method.post, "/api/pusher-auth" =>
      ⟨⟨200, JsValue.str "pusher authorization token"⟩, db, [], []⟩
  | Method.get, "/health" => ⟨⟨200, healthBody⟩, db, [], []⟩
  | Method.get, "/api/metrics" => ⟨⟨200, JsValue.str "metrics exposition"⟩, db, [], []⟩
  | Method.get, "/feedbacks" => handleFeedbacks env db
  | Method.get, _ => ⟨⟨200, JsValue.str "index.html"⟩, db, [], []⟩
  | Method.post, _ => ⟨⟨404, JsValue.undef⟩, db, [], []⟩

/-- An oracle where every external operation succeeds. -/
def envAllOk : Env := ⟨true, true, true, true, true, true, 1000⟩

/-- An empty, disconnected database. -/
def dbEmpty : DbState := ⟨[], 0, 0⟩

/-- An empty database with an established connection. -/
def dbConnected : DbState := ⟨[], 0, 1⟩

/-- A sample submission payload for team T1. -/
def sampleData : JsValue :=
  JsValue.obj [("team", JsValue.str "T1"), ("evaluator", JsValue.str "U1"),
    ("evaluation", JsValue.obj [("ratings", JsValue.obj [("clarity", JsValue.num 5)]),
      ("feedback", JsValue.str "good")])]

/-- A sample evaluationSubmitted request body. -/
def sampleBody : JsValue :=
  JsValue.obj [("event", JsValue.str "evaluationSubmitted"), ("data", sampleData)]

/-- A sample relay request body. -/
def relayBody : JsValue :=
  JsValue.obj [("event", JsValue.str "timeSync"), ("data", JsValue.obj [("t", JsValue.num 42)])]

example : (handleUpload envAllOk dbConnected relayBody).response.status = 200 := by decide

example : (handleUpload envAllOk dbConnected relayBody).broadcasts =
    [⟨"presentation", "timeSync", JsValue.obj [("t", JsValue.num 42)]⟩] := by decide

example : (handleUpload envAllOk dbEmpty sampleBody).db.evaluations.length = 1 := by decide

example : (handleUpload envAllOk dbEmpty sampleBody).broadcasts.length = 2 := by decide

/-- C7: the ensure-connected operation is idempotent: it attempts a
new connection (one `DbOp.connect`) only when the connection state is
disconnected (`readyState` 0); when the connection is established or
pending it performs no action and leaves the state unchanged; and
after any successful call a repeated call is a no-op. -/
theorem connectDB_idempotent (env : Env) (db : DbState) :
    (db.readyState ≠ 0 → connectDB env db = (Except.ok db, [])) ∧
    (db.readyState = 0 → (connectDB env db).2 = [DbOp.connect]) ∧
    (∀ db2 : DbState, (connectDB env db).1 = Except.ok db2 →
      connectDB env db2 = (Except.ok db2, [])) := by
  refine ⟨fun h => by simp [connectDB, h], fun h => ?_, fun db2 h2 => ?_⟩
  · by_cases hc : env.connectOk <;> simp [connectDB, h, hc]
  · by_cases h : db.readyState = 0
    · by_cases hc : env.connectOk
      · simp [connectDB, h, hc] at h2
        simp [connectDB, ← h2]
      · simp [connectDB, h, hc] at h2
    · simp [connectDB, h] at h2
      simp [connectDB, ← h2, h]

/-- Witness for C7 at a connected database: no action is taken. -/
theorem connectDB_idempotent_witness :
    dbConnected.readyState ≠ 0 ∧ connectDB envAllOk dbConnected = (Except.ok dbConnected, []) :=
  ⟨by decide, (connectDB_idempotent envAllOk dbConnected).1 (by decide)⟩

/-- C8: GET /health always answers 200 with body `{status: "ok"}`,
for every oracle (any database/broker reachability), leaving the
database untouched and issuing no broadcast and no database call. -/
theorem health_always_ok (env : Env) (db : DbState) (body : JsValue) :
    handleRequest env db ⟨Method.get, "/health", body⟩ =
      ⟨⟨200, JsValue.obj [("status", JsValue.str "ok")]⟩, db, [], []⟩ := rfl

/-- C2: for a POST /api/upload body with no bulk type discriminator
and an event name among the six relay events, exactly one broadcast is
issued to the "presentation" channel with that event name and the
payload unchanged, no evaluation record is created, no record-level
database call is made, and the response is the 200 success
acknowledgment. -/
theorem relay_event_single_broadcast (env : Env) (db : DbState)
    (body data ty : JsValue) (s : String)
    (hconn : env.connectOk = true)
    (hrelay : env.triggerRelayOk = true)
    (hev : getProp body "event" = Except.ok (JsValue.str s))
    (hs : relayEvents.contains s = true)
    (hdata : getProp body "data" = Except.ok data)
    (hty : getProp body "type" = Except.ok ty)
    (htyp : ty ≠ JsValue.str "participants")
    (htyt : ty ≠ JsValue.str "teams") :
    (handleUpload env db body).response = ⟨200, successBody⟩ ∧
    (handleUpload env db body).broadcasts = [⟨"presentation", s, data⟩] ∧
    (handleUpload env db body).db.evaluations = db.evaluations ∧
    DbOp.create ∉ (handleUpload env db body).dbCalls ∧
    DbOp.find ∉ (handleUpload env db body).dbCalls := by
  have hmem : s ∈ relayEvents := by simpa using hs
  by_cases h0 : db.readyState = 0 <;>
    simp [handleUpload, handleUploadAux, handleUploadBody, dispatchEvent, connectDB,
      h0, hconn, hev, hdata, hty, htyp, htyt, hmem, pusherTrigger, hrelay]

/-- Witness for C2: a timeSync event on a connected empty database. -/
theorem relay_event_single_broadcast_witness :
    envAllOk.connectOk = true ∧
    ((handleUpload envAllOk dbConnected relayBody).response = ⟨200, successBody⟩ ∧
     (handleUpload envAllOk dbConnected relayBody).broadcasts =
       [⟨"presentation", "timeSync", JsValue.obj [("t", JsValue.num 42)]⟩] ∧
     (handleUpload envAllOk dbConnected relayBody).db.evaluations = dbConnected.evaluations ∧
     DbOp.create ∉ (handleUpload envAllOk dbConnected relayBody).dbCalls ∧
     DbOp.find ∉ (handleUpload envAllOk dbConnected relayBody).dbCalls) :=
  ⟨rfl, relay_event_single_broadcast envAllOk dbConnected relayBody
    (JsValue.obj [("t", JsValue.num 42)]) JsValue.undef "timeSync"
    rfl rfl (by decide) (by decide) (by decide) (by decide) (by decide) (by decide)⟩

/-- The document that `Evaluation.create` stores for a submission:
payload fields plus the next store id and the clock. Statement
shorthand for the record literal built in `evaluationCreate`. -/
def storedEvaluation (env : Env) (db : DbState)
    (team evaluator ratings feedback : JsValue) : Evaluation :=
  { id := db.nextId, teamName := team, evaluatorUSN := evaluator,
    ratings := ratings, feedback := feedback, submittedAt := env.now }

/-- C1: for a POST /api/upload body with event `evaluationSubmitted`
and no bulk type discriminator, whose data carries team, evaluator and
an evaluation object with ratings and feedback, exactly one record is
appended (fields from the payload, `submittedAt` from the clock), and
exactly two broadcasts occur in order: `evaluationSubmitted` with the
original payload merged with the stored id, then `teamEvaluations`
listing exactly the stored records whose team name equals the
payload's team. -/
theorem evaluation_submitted_flow (env : Env) (db : DbState)
    (body data team evaluator evalObj ratings feedback ty : JsValue)
    (hconn : env.connectOk = true) (hcr : env.createOk = true)
    (ht1 : env.triggerEvalOk = true) (hfind : env.findOk = true)
    (ht2 : env.triggerTeamOk = true)
    (hev : getProp body "event" = Except.ok (JsValue.str "evaluationSubmitted"))
    (hdata : getProp body "data" = Except.ok data)
    (hty : getProp body "type" = Except.ok ty)
    (htyp : ty ≠ JsValue.str "participants") (htyt : ty ≠ JsValue.str "teams")
    (hteam : getProp data "team" = Except.ok team)
    (hevl : getProp data "evaluator" = Except.ok evaluator)
    (hobj : getProp data "evaluation" = Except.ok evalObj)
    (hrat : getProp evalObj "ratings" = Except.ok ratings)
    (hfb : getProp evalObj "feedback" = Except.ok feedback) :
    (handleUpload env db body).response = ⟨200, successBody⟩ ∧
    (handleUpload env db body).db.evaluations =
      db.evaluations ++ [storedEvaluation env db team evaluator ratings feedback] ∧
    (handleUpload env db body).broadcasts =
      [⟨"presentation", "evaluationSubmitted",
         JsValue.obj (spreadFields data ++ [("evaluationId", JsValue.num db.nextId)])⟩,
       ⟨"presentation", "teamEvaluations",
         JsValue.obj [("team", team),
           ("evaluations", JsValue.arr
             (((db.evaluations ++ [storedEvaluation env db team evaluator ratings feedback]).filter
                 fun e => e.teamName == team).map Evaluation.toJs))]⟩] := by
  by_cases h0 : db.readyState = 0 <;>
    simp [handleUpload, handleUploadAux, handleUploadBody, dispatchEvent,
      handleEvaluationSubmitted, connectDB, h0, hconn, hev, hdata, hty, htyp, htyt,
      hteam, hevl, hobj, hrat, hfb, evaluationCreate, hcr, pusherTrigger, ht1, ht2,
      evaluationFind, hfind, relayEvents, storedEvaluation]

/-- Witness for C1: a first submission for team T1 on an empty
database creates the record and produces the two broadcasts. -/
theorem evaluation_submitted_flow_witness :
    envAllOk.connectOk = true ∧
    ((handleUpload envAllOk dbEmpty sampleBody).response = ⟨200, successBody⟩ ∧
     (handleUpload envAllOk dbEmpty sampleBody).db.evaluations =
       dbEmpty.evaluations ++ [storedEvaluation envAllOk dbEmpty (JsValue.str "T1")
         (JsValue.str "U1") (JsValue.obj [("clarity", JsValue.num 5)]) (JsValue.str "good")] ∧
     (handleUpload envAllOk dbEmpty sampleBody).broadcasts =
       [⟨"presentation", "evaluationSubmitted",
          JsValue.obj (spreadFields sampleData ++ [("evaluationId", JsValue.num dbEmpty.nextId)])⟩,
        ⟨"presentation", "teamEvaluations",
          JsValue.obj [("team", JsValue.str "T1"),
            ("evaluations", JsValue.arr
              (((dbEmpty.evaluations ++ [storedEvaluation envAllOk dbEmpty (JsValue.str "T1")
                  (JsValue.str "U1") (JsValue.obj [("clarity", JsValue.num 5)])
                  (JsValue.str "good")]).filter
                  fun e => e.teamName == JsValue.str "T1").map Evaluation.toJs))]⟩]) :=
  ⟨rfl, evaluation_submitted_flow envAllOk dbEmpty sampleBody sampleData
    (JsValue.str "T1") (JsValue.str "U1")
    (JsValue.obj [("ratings", JsValue.obj [("clarity", JsValue.num 5)]),
      ("feedback", JsValue.str "good")])
    (JsValue.obj [("clarity", JsValue.num 5)]) (JsValue.str "good") JsValue.undef
    rfl rfl rfl rfl rfl (by decide) (by decide) (by decide) (by decide) (by decide)
    (by decide) (by decide) (by decide) (by decide) (by decide)⟩

/-- The default branch of the event switch: any event that is not a
relay event name and not `evaluationSubmitted` (including non-string
events) answers 400 with no effect. -/
theorem dispatchEvent_default (env : Env) (db : DbState) (ev data : JsValue)
    (hnot : ∀ s : String, ev = JsValue.str s →
      relayEvents.contains s = false ∧ s ≠ "evaluationSubmitted") :
    dispatchEvent env db ev data = ⟨Except.ok ⟨400, invalidEventBody⟩, db, [], []⟩ := by
  cases ev with
  | str s =>
      obtain ⟨h1, h2⟩ := hnot s rfl
      have h1m : s ∉ relayEvents := by simpa using h1
      simp [dispatchEvent, h1m, h2]
  | null => rfl
  | undef => rfl
  | num n => rfl
  | obj fs => rfl
  | arr es => rfl

/-- C3: a POST /api/upload body with no bulk type discriminator and an
event name outside the enumerated set answers 400 "Invalid event
type", with zero broadcasts and zero record-level persistence calls,
leaving the stored records unchanged. -/
theorem invalid_event_rejected (env : Env) (db : DbState) (body data ev ty : JsValue)
    (hconn : env.connectOk = true)
    (hev : getProp body "event" = Except.ok ev)
    (hdata : getProp body "data" = Except.ok data)
    (hty : getProp body "type" = Except.ok ty)
    (htyp : ty ≠ JsValue.str "participants") (htyt : ty ≠ JsValue.str "teams")
    (hnot : ∀ s : String, ev = JsValue.str s →
      relayEvents.contains s = false ∧ s ≠ "evaluationSubmitted") :
    (handleUpload env db body).response = ⟨400, invalidEventBody⟩ ∧
    (handleUpload env db body).broadcasts = [] ∧
    (handleUpload env db body).db.evaluations = db.evaluations ∧
    DbOp.create ∉ (handleUpload env db body).dbCalls ∧
    DbOp.find ∉ (handleUpload env db body).dbCalls := by
  have hd : ∀ db2 : DbState,
      dispatchEvent env db2 ev data = ⟨Except.ok ⟨400, invalidEventBody⟩, db2, [], []⟩ :=
    fun db2 => dispatchEvent_default env db2 ev data hnot
  by_cases h0 : db.readyState = 0 <;>
    simp [handleUpload, handleUploadAux, handleUploadBody, connectDB, h0, hconn,
      hev, hdata, hty, htyp, htyt, hd]

/-- A request body with an unknown event name. -/
def invalidBody : JsValue :=
  JsValue.obj [("event", JsValue.str "bogus"), ("data", JsValue.null)]

/-- Witness for C3: posting event "bogus" answers 400 without effects. -/
theorem invalid_event_rejected_witness :
    envAllOk.connectOk = true ∧
    ((handleUpload envAllOk dbConnected invalidBody).response = ⟨400, invalidEventBody⟩ ∧
     (handleUpload envAllOk dbConnected invalidBody).broadcasts = [] ∧
     (handleUpload envAllOk dbConnected invalidBody).db.evaluations = dbConnected.evaluations ∧
     DbOp.create ∉ (handleUpload envAllOk dbConnected invalidBody).dbCalls ∧
     DbOp.find ∉ (handleUpload envAllOk dbConnected invalidBody).dbCalls) :=
  ⟨rfl, invalid_event_rejected envAllOk dbConnected invalidBody JsValue.null
    (JsValue.str "bogus") JsValue.undef rfl (by decide) (by decide) (by decide)
    (by decide) (by decide)
    (by intro s hs; injection hs with h; subst h; exact ⟨by decide, by decide⟩)⟩

/-- Reading `length` of an array value yields its element count. -/
theorem getProp_arr_length (es : List JsValue) :
    getProp (JsValue.arr es) "length" = Except.ok (JsValue.num es.length) := rfl

/-- String coercion of a string value is the string itself. -/
theorem jsToKey_str (s : String) : jsToKey (JsValue.str s) = s := rfl

/-- C4: a POST /api/upload body whose type discriminator is
"participants" or "teams" with a list-valued data field answers the
200 bulk acknowledgment carrying the item count, with no broadcast and
no record-level persistence call, whatever event name the body also
carries. -/
theorem bulk_upload_ack (env : Env) (db : DbState) (body ev : JsValue)
    (items : List JsValue) (s : String)
    (hconn : env.connectOk = true)
    (hev : getProp body "event" = Except.ok ev)
    (hdata : getProp body "data" = Except.ok (JsValue.arr items))
    (hty : getProp body "type" = Except.ok (JsValue.str s))
    (hs : s = "participants" ∨ s = "teams") :
    (handleUpload env db body).response =
      ⟨200, JsValue.obj
        [("message", JsValue.str ("Successfully processed " ++ s ++ " upload")),
         ("count", JsValue.num items.length)]⟩ ∧
    (handleUpload env db body).broadcasts = [] ∧
    (handleUpload env db body).db.evaluations = db.evaluations ∧
    DbOp.create ∉ (handleUpload env db body).dbCalls ∧
    DbOp.find ∉ (handleUpload env db body).dbCalls := by
  rcases hs with rfl | rfl <;> by_cases h0 : db.readyState = 0 <;>
    simp [handleUpload, handleUploadAux, handleUploadBody, connectDB, h0, hconn,
      hev, hdata, hty, getProp_arr_length, jsToKey_str]

/-- A bulk participants upload body that also carries an event name. -/
def bulkBody : JsValue :=
  JsValue.obj [("type", JsValue.str "participants"),
    ("data", JsValue.arr [JsValue.str "a", JsValue.str "b"]),
    ("event", JsValue.str "evaluationSubmitted")]

/-- Witness for C4: a two-item participants upload is acknowledged
with count 2 and nothing else happens. -/
theorem bulk_upload_ack_witness :
    envAllOk.connectOk = true ∧
    ((handleUpload envAllOk dbConnected bulkBody).response =
      ⟨200, JsValue.obj
        [("message", JsValue.str ("Successfully processed " ++ "participants" ++ " upload")),
         ("count", JsValue.num ([JsValue.str "a", JsValue.str "b"] : List JsValue).length)]⟩ ∧
     (handleUpload envAllOk dbConnected bulkBody).broadcasts = [] ∧
     (handleUpload envAllOk dbConnected bulkBody).db.evaluations = dbConnected.evaluations ∧
     DbOp.create ∉ (handleUpload envAllOk dbConnected bulkBody).dbCalls ∧
     DbOp.find ∉ (handleUpload envAllOk dbConnected bulkBody).dbCalls) :=
  ⟨rfl, bulk_upload_ack envAllOk dbConnected bulkBody (JsValue.str "evaluationSubmitted")
    [JsValue.str "a", JsValue.str "b"] "participants"
    rfl (by decide) (by decide) (by decide) (Or.inl rfl)⟩

/-- C5: during an `evaluationSubmitted` event, when the record
creation succeeds but a later broadcast or team query fails, the
request answers the generic 500 error while the created record stays
persisted: the stored list still ends with the new record (no
compensating deletion). -/
theorem submission_failure_no_rollback (env : Env) (db : DbState)
    (body data team evaluator evalObj ratings feedback ty : JsValue)
    (hconn : env.connectOk = true) (hcr : env.createOk = true)
    (hev : getProp body "event" = Except.ok (JsValue.str "evaluationSubmitted"))
    (hdata : getProp body "data" = Except.ok data)
    (hty : getProp body "type" = Except.ok ty)
    (htyp : ty ≠ JsValue.str "participants") (htyt : ty ≠ JsValue.str "teams")
    (hteam : getProp data "team" = Except.ok team)
    (hevl : getProp data "evaluator" = Except.ok evaluator)
    (hobj : getProp data "evaluation" = Except.ok evalObj)
    (hrat : getProp evalObj "ratings" = Except.ok ratings)
    (hfb : getProp evalObj "feedback" = Except.ok feedback)
    (hfail : env.triggerEvalOk = false ∨ env.findOk = false ∨ env.triggerTeamOk = false) :
    (handleUpload env db body).response = ⟨500, internalErrorBody⟩ ∧
    (handleUpload env db body).db.evaluations =
      db.evaluations ++ [storedEvaluation env db team evaluator ratings feedback] := by
  rcases hfail with hf | hf | hf
  · by_cases h0 : db.readyState = 0 <;>
      simp [handleUpload, handleUploadAux, handleUploadBody, dispatchEvent,
        handleEvaluationSubmitted, connectDB, h0, hconn, hev, hdata, hty, htyp, htyt,
        hteam, hevl, hobj, hrat, hfb, evaluationCreate, hcr, pusherTrigger, hf,
        relayEvents, storedEvaluation]
  · by_cases h0 : db.readyState = 0 <;> cases hte : env.triggerEvalOk <;>
      simp [handleUpload, handleUploadAux, handleUploadBody, dispatchEvent,
        handleEvaluationSubmitted, connectDB, h0, hconn, hev, hdata, hty, htyp, htyt,
        hteam, hevl, hobj, hrat, hfb, evaluationCreate, hcr, pusherTrigger, hte,
        evaluationFind, hf, relayEvents, storedEvaluation]
  · by_cases h0 : db.readyState = 0 <;> cases hte : env.triggerEvalOk <;>
      cases hfi : env.findOk <;>
      simp [handleUpload, handleUploadAux, handleUploadBody, dispatchEvent,
        handleEvaluationSubmitted, connectDB, h0, hconn, hev, hdata, hty, htyp, htyt,
        hteam, hevl, hobj, hrat, hfb, evaluationCreate, hcr, pusherTrigger, hte,
        evaluationFind, hfi, hf, relayEvents, storedEvaluation]

/-- An oracle where the first broadcast of the submission flow fails
and everything else succeeds. -/
def envBrokenBroadcast : Env := ⟨true, true, true, true, false, true, 1000⟩

/-- Witness for C5: with the `evaluationSubmitted` broadcast failing,
the submission answers 500 and the record is still stored. -/
theorem submission_failure_no_rollback_witness :
    envBrokenBroadcast.createOk = true ∧
    ((handleUpload envBrokenBroadcast dbEmpty sampleBody).response = ⟨500, internalErrorBody⟩ ∧
     (handleUpload envBrokenBroadcast dbEmpty sampleBody).db.evaluations =
       dbEmpty.evaluations ++ [storedEvaluation envBrokenBroadcast dbEmpty (JsValue.str "T1")
         (JsValue.str "U1") (JsValue.obj [("clarity", JsValue.num 5)]) (JsValue.str "good")]) :=
  ⟨rfl, submission_failure_no_rollback envBrokenBroadcast dbEmpty sampleBody sampleData
    (JsValue.str "T1") (JsValue.str "U1")
    (JsValue.obj [("ratings", JsValue.obj [("clarity", JsValue.num 5)]),
      ("feedback", JsValue.str "good")])
    (JsValue.obj [("clarity", JsValue.num 5)]) (JsValue.str "good") JsValue.undef
    rfl rfl (by decide) (by decide) (by decide) (by decide) (by decide) (by decide)
    (by decide) (by decide) (by decide) (by decide) (Or.inl rfl)⟩

/-- Reading any property of `undefined` throws a TypeError. -/
theorem getProp_undef (key : String) :
    getProp JsValue.undef key = Except.error JsError.typeError := rfl

/-- C9: an `evaluationSubmitted` body whose data lacks the nested
evaluation object throws while reading `data.evaluation.ratings`
before the create call is issued: the response is the generic 500
error, no record is created and no broadcast and no create call
happen. -/
theorem missing_evaluation_object_500 (env : Env) (db : DbState)
    (body data team evaluator ty : JsValue)
    (hconn : env.connectOk = true)
    (hev : getProp body "event" = Except.ok (JsValue.str "evaluationSubmitted"))
    (hdata : getProp body "data" = Except.ok data)
    (hty : getProp body "type" = Except.ok ty)
    (htyp : ty ≠ JsValue.str "participants") (htyt : ty ≠ JsValue.str "teams")
    (hteam : getProp data "team" = Except.ok team)
    (hevl : getProp data "evaluator" = Except.ok evaluator)
    (hobj : getProp data "evaluation" = Except.ok JsValue.undef) :
    (handleUpload env db body).response = ⟨500, internalErrorBody⟩ ∧
    (handleUpload env db body).db.evaluations = db.evaluations ∧
    (handleUpload env db body).broadcasts = [] ∧
    DbOp.create ∉ (handleUpload env db body).dbCalls := by
  by_cases h0 : db.readyState = 0 <;>
    simp [handleUpload, handleUploadAux, handleUploadBody, dispatchEvent,
      handleEvaluationSubmitted, connectDB, h0, hconn, hev, hdata, hty, htyp, htyt,
      hteam, hevl, hobj, getProp_undef, relayEvents]

/-- A submission body whose data has no evaluation object. -/
def noEvalBody : JsValue :=
  JsValue.obj [("event", JsValue.str "evaluationSubmitted"),
    ("data", JsValue.obj [("team", JsValue.str "T1"), ("evaluator", JsValue.str "U1")])]

/-- Witness for C9: the submission without an evaluation object
answers 500 and stores nothing. -/
theorem missing_evaluation_object_500_witness :
    envAllOk.connectOk = true ∧
    ((handleUpload envAllOk dbConnected noEvalBody).response = ⟨500, internalErrorBody⟩ ∧
     (handleUpload envAllOk dbConnected noEvalBody).db.evaluations = dbConnected.evaluations ∧
     (handleUpload envAllOk dbConnected noEvalBody).broadcasts = [] ∧
     DbOp.create ∉ (handleUpload envAllOk dbConnected noEvalBody).dbCalls) :=
  ⟨rfl, missing_evaluation_object_500 envAllOk dbConnected noEvalBody
    (JsValue.obj [("team", JsValue.str "T1"), ("evaluator", JsValue.str "U1")])
    (JsValue.str "T1") (JsValue.str "U1") JsValue.undef
    rfl (by decide) (by decide) (by decide) (by decide) (by decide) (by decide)
    (by decide) (by decide)⟩

/-- C10: a POST /api/upload body with type "participants" or "teams"
but no data field throws while reading `data.length`; the error is
caught and the response is the generic 500 error instead of the bulk
acknowledgment, with no broadcast and no stored record change. -/
theorem bulk_missing_data_500 (env : Env) (db : DbState) (body ev : JsValue) (s : String)
    (hconn : env.connectOk = true)
    (hev : getProp body "event" = Except.ok ev)
    (hdata : getProp body "data" = Except.ok JsValue.undef)
    (hty : getProp body "type" = Except.ok (JsValue.str s))
    (hs : s = "participants" ∨ s = "teams") :
    (handleUpload env db body).response = ⟨500, internalErrorBody⟩ ∧
    (handleUpload env db body).broadcasts = [] ∧
    (handleUpload env db body).db.evaluations = db.evaluations ∧
    DbOp.create ∉ (handleUpload env db body).dbCalls := by
  rcases hs with rfl | rfl <;> by_cases h0 : db.readyState = 0 <;>
    simp [handleUpload, handleUploadAux, handleUploadBody, connectDB, h0, hconn,
      hev, hdata, hty, getProp_undef]

/-- A bulk upload body with no data field at all. -/
def bulkNoDataBody : JsValue := JsValue.obj [("type", JsValue.str "teams")]

/-- Witness for C10: a teams upload without data answers 500. -/
theorem bulk_missing_data_500_witness :
    envAllOk.connectOk = true ∧
    ((handleUpload envAllOk dbConnected bulkNoDataBody).response = ⟨500, internalErrorBody⟩ ∧
     (handleUpload envAllOk dbConnected bulkNoDataBody).broadcasts = [] ∧
     (handleUpload envAllOk dbConnected bulkNoDataBody).db.evaluations =
       dbConnected.evaluations ∧
     DbOp.create ∉ (handleUpload envAllOk dbConnected bulkNoDataBody).dbCalls) :=
  ⟨rfl, bulk_missing_data_500 envAllOk dbConnected bulkNoDataBody JsValue.undef "teams"
    rfl (by decide) (by decide) (by decide) (Or.inr rfl)⟩

/-- Invariant of the feedbacks reduce: after processing `processed`,
the accumulator has pairwise distinct keys, holds a key exactly when
some processed document coerces to it, and each bucket is the ordered
projection of the processed documents with that key. -/
def GroupInv (processed : List Evaluation)
    (acc : List (String × List FeedbackEntry)) : Prop :=
  (acc.map Prod.fst).Nodup ∧
  (∀ k : String, k ∈ acc.map Prod.fst ↔ ∃ e ∈ processed, keyOf e = k) ∧
  (∀ k entries, (k, entries) ∈ acc →
    entries = (processed.filter fun e => keyOf e == k).map entryOf)


/-- One reduce step succeeds and preserves the grouping invariant when
the document's key is not an inherited `Object.prototype` property
name. -/
theorem groupInv_step (processed : List Evaluation)
    (acc : List (String × List FeedbackEntry)) (e : Evaluation)
    (hp : protoKeys.contains (keyOf e) = false)
    (h : GroupInv processed acc) :
    ∃ acc2, feedbackStep acc e = Except.ok acc2 ∧ GroupInv (processed ++ [e]) acc2 := by
  obtain ⟨hnd, hmem, hent⟩ := h
  by_cases hin : (acc.any fun p => p.1 = keyOf e) = true
  · refine ⟨acc.map fun p => if p.1 = keyOf e then (p.1, p.2 ++ [entryOf e]) else p, ?_, ?_⟩
    · unfold feedbackStep; rw [if_pos hin]
    · have hkin : keyOf e ∈ acc.map Prod.fst := by
        rcases List.any_eq_true.mp hin with ⟨p, hp2, hpe⟩
        exact List.mem_map.mpr ⟨p, hp2, by simpa using hpe⟩
      have hfst : ((acc.map fun p =>
          if p.1 = keyOf e then (p.1, p.2 ++ [entryOf e]) else p).map Prod.fst) =
          acc.map Prod.fst := by
        rw [List.map_map]
        apply List.map_congr_left
        intro p _
        by_cases hp2 : p.1 = keyOf e <;> simp [hp2]
      refine ⟨?_, ?_, ?_⟩
      · rw [hfst]; exact hnd
      · intro k
        rw [hfst, hmem k]
        constructor
        · rintro ⟨e2, he2, hk⟩
          exact ⟨e2, List.mem_append_left _ he2, hk⟩
        · rintro ⟨e2, he2, hk⟩
          rcases List.mem_append.mp he2 with h2 | h2
          · exact ⟨e2, h2, hk⟩
          · have he : e2 = e := by simpa using h2
            subst he
            obtain ⟨e3, he3, hk3⟩ := (hmem (keyOf e2)).mp hkin
            exact ⟨e3, he3, hk3.trans hk⟩
      · intro k entries hkent
        rcases List.mem_map.mp hkent with ⟨p, hp2, hfp⟩
        by_cases hpk : p.1 = keyOf e
        · rw [if_pos hpk] at hfp
          injection hfp with hk he2
          subst hk; subst he2
          have hold := hent p.1 p.2 hp2
          rw [List.filter_append, List.map_append, ← hold, hpk]
          simp
        · rw [if_neg hpk] at hfp
          have hk : p.1 = k := congrArg Prod.fst hfp
          have he2 : p.2 = entries := congrArg Prod.snd hfp
          have hne : (keyOf e == k) = false :=
            beq_eq_false_iff_ne.mpr fun hc => hpk (by rw [hk, ← hc])
          rw [← he2, hent p.1 p.2 hp2, List.filter_append, hk]
          simp [hne]
  · refine ⟨acc ++ [(keyOf e, [entryOf e])], ?_, ?_⟩
    · unfold feedbackStep
      rw [if_neg hin, if_neg (by rw [hp]; simp)]
    · have hnotin : keyOf e ∉ acc.map Prod.fst := by
        intro hk
        rcases List.mem_map.mp hk with ⟨p, hp2, hpe⟩
        exact hin (List.any_eq_true.mpr ⟨p, hp2, by simp [hpe]⟩)
      have hnone : ∀ e2 ∈ processed, keyOf e2 ≠ keyOf e := by
        intro e2 he2 hc
        exact hnotin ((hmem (keyOf e)).mpr ⟨e2, he2, hc⟩)
      refine ⟨?_, ?_, ?_⟩
      · rw [List.map_append]
        simp [List.nodup_append, hnd, hnotin]
      · intro k
        rw [List.map_append, List.mem_append, hmem k]
        simp only [List.map_cons, List.map_nil, List.mem_singleton]
        constructor
        · rintro (⟨e2, he2, hk⟩ | rfl)
          · exact ⟨e2, List.mem_append_left _ he2, hk⟩
          · exact ⟨e, List.mem_append_right _ (by simp), rfl⟩
        · rintro ⟨e2, he2, hk⟩
          rcases List.mem_append.mp he2 with h2 | h2
          · exact Or.inl ⟨e2, h2, hk⟩
          · have he : e2 = e := by simpa using h2
            subst he
            exact Or.inr hk.symm
      · intro k entries hkent
        rcases List.mem_append.mp hkent with h2 | h2
        · have hk : k ∈ acc.map Prod.fst := List.mem_map.mpr ⟨(k, entries), h2, rfl⟩
          have hkne : (keyOf e == k) = false := by
            refine beq_eq_false_iff_ne.mpr fun hc => hnotin ?_
            rw [hc]; exact hk
          rw [hent k entries h2, List.filter_append]
          simp [hkne]
        · have hpair : (k, entries) = (keyOf e, [entryOf e]) := by simpa using h2
          injection hpair with hk he2
          subst hk; subst he2
          have hfil : processed.filter (fun e2 => keyOf e2 == keyOf e) = [] := by
            rw [List.filter_eq_nil_iff]
            intro a ha
            simp [hnone a ha]
          rw [List.filter_append, hfil]
          simp

/-- The reduce succeeds over any suffix free of prototype-key
collisions and maintains the grouping invariant. -/
theorem groupInv_fold (rest : List Evaluation) :
    ∀ processed acc, (∀ e ∈ rest, protoKeys.contains (keyOf e) = false) →
      GroupInv processed acc →
      ∃ g, groupFold acc rest = Except.ok g ∧ GroupInv (processed ++ rest) g := by
  induction rest with
  | nil =>
      intro processed acc _ h
      exact ⟨acc, rfl, by simpa using h⟩
  | cons e rest ih =>
      intro processed acc hp h
      obtain ⟨acc2, hstep, h2⟩ := groupInv_step processed acc e (hp e (by simp)) h
      obtain ⟨g, hg, h3⟩ := ih (processed ++ [e]) acc2
        (fun e2 he2 => hp e2 (List.mem_cons_of_mem _ he2)) h2
      refine ⟨g, ?_, ?_⟩
      · have hred : groupFold acc (e :: rest) = groupFold acc2 rest := by
          simp only [groupFold, hstep]
        rw [hred, hg]
      · simpa [List.append_assoc] using h3

/-- When no stored key collides with a prototype property, the
feedbacks grouping of the full store succeeds and satisfies the
invariant. -/
theorem groupedFeedbacks_inv (evals : List Evaluation)
    (hp : ∀ e ∈ evals, protoKeys.contains (keyOf e) = false) :
    ∃ g, groupedFeedbacks evals = Except.ok g ∧ GroupInv evals g := by
  have h0 : GroupInv [] [] := ⟨by simp, by simp, by simp⟩
  obtain ⟨g, hg, hinv⟩ := groupInv_fold evals [] [] hp h0
  exact ⟨g, by simpa [groupedFeedbacks] using hg, by simpa using hinv⟩

/-- A stored record whose team name is an `Object.prototype` property
name. -/
def storedProto : Evaluation :=
  ⟨0, JsValue.str "constructor", JsValue.str "U1",
    JsValue.obj [("clarity", JsValue.num 5)], JsValue.str "good", 500⟩

/-- A connected database holding only the prototype-named record. -/
def dbProto : DbState := ⟨[storedProto], 1, 1⟩

/-- Counterexample to C6 as stated: with a stored record whose team
name is the string "constructor", the reduce reads a truthy inherited
value, skips the bucket initialization, and `push` throws a TypeError,
so GET /feedbacks answers the generic 500 error instead of an object
keyed by team name. -/
theorem feedbacks_grouped_by_team_counterexample :
    storedProto.teamName = JsValue.str "constructor" ∧
    dbProto.evaluations = [storedProto] ∧
    groupedFeedbacks dbProto.evaluations = Except.error JsError.typeError ∧
    (handleFeedbacks envAllOk dbProto).response = ⟨500, internalErrorBody⟩ := by decide

/-- C6 (amended): for GET /feedbacks, when every stored team name is a
string and none is a property name inherited from `Object.prototype`,
the reduce succeeds and the response is 200 with the records grouped
by team name: pairwise distinct keys, exactly one key per distinct
team name (a key is present exactly when some record carries it), and
each key maps to the ordered projection (evaluatorUSN, ratings,
feedback, submittedAt) of that team's records in insertion order. -/
theorem feedbacks_grouped_by_team (env : Env) (db : DbState)
    (hconn : env.connectOk = true) (hfind : env.findOk = true)
    (hstr : ∀ e ∈ db.evaluations, ∃ s : String, e.teamName = JsValue.str s)
    (hproto : ∀ e ∈ db.evaluations, protoKeys.contains (keyOf e) = false) :
    ∃ g, groupedFeedbacks db.evaluations = Except.ok g ∧
      (handleFeedbacks env db).response = ⟨200, feedbacksToJs g⟩ ∧
      (g.map Prod.fst).Nodup ∧
      (∀ s : String, s ∈ g.map Prod.fst ↔
        ∃ e ∈ db.evaluations, e.teamName = JsValue.str s) ∧
      (∀ s entries, (s, entries) ∈ g →
        entries = (db.evaluations.filter fun e => e.teamName == JsValue.str s).map entryOf) := by
  obtain ⟨g, hg, hnd, hmem, hent⟩ := groupedFeedbacks_inv db.evaluations hproto
  refine ⟨g, hg, ?_, hnd, ?_, ?_⟩
  · by_cases h0 : db.readyState = 0 <;>
      simp [handleFeedbacks, connectDB, h0, hconn, evaluationFindAll, hfind, hg]
  · intro s
    rw [hmem s]
    constructor
    · rintro ⟨e, he, hk⟩
      obtain ⟨t, ht⟩ := hstr e he
      have hts : t = s := by simpa [keyOf, ht, jsToKey_str] using hk
      exact ⟨e, he, by rw [ht, hts]⟩
    · rintro ⟨e, he, ht⟩
      exact ⟨e, he, by simp [keyOf, ht, jsToKey_str]⟩
  · intro s entries hin
    rw [hent s entries hin]
    have hfeq : (db.evaluations.filter fun e => keyOf e == s) =
        (db.evaluations.filter fun e => e.teamName == JsValue.str s) := by
      apply List.filter_congr
      intro e he
      obtain ⟨t, ht⟩ := hstr e he
      rcases eq_or_ne t s with rfl | hts
      · simp [keyOf, ht, jsToKey_str]
      · have e1 : (keyOf e == s) = false := by
          simp [keyOf, ht, jsToKey_str, hts]
        have e2 : (e.teamName == JsValue.str s) = false := by
          simp [ht, hts]
        rw [e1, e2]
    rw [hfeq]

/-- Two stored records for different teams. -/
def storedT1 : Evaluation :=
  ⟨0, JsValue.str "T1", JsValue.str "U1", JsValue.obj [("clarity", JsValue.num 5)],
    JsValue.str "good", 500⟩

/-- A second stored record, for another team. -/
def storedT2 : Evaluation :=
  ⟨1, JsValue.str "T2", JsValue.str "U2", JsValue.obj [("clarity", JsValue.num 3)],
    JsValue.str "fair", 600⟩

/-- A connected database holding records for teams T1 and T2. -/
def dbTwoTeams : DbState := ⟨[storedT1, storedT2], 2, 1⟩

/-- Witness for C6 on a store with two teams. -/
theorem feedbacks_grouped_by_team_witness :
    envAllOk.findOk = true ∧
    (∃ g, groupedFeedbacks dbTwoTeams.evaluations = Except.ok g ∧
      (handleFeedbacks envAllOk dbTwoTeams).response = ⟨200, feedbacksToJs g⟩ ∧
      (g.map Prod.fst).Nodup ∧
      (∀ s : String, s ∈ g.map Prod.fst ↔
        ∃ e ∈ dbTwoTeams.evaluations, e.teamName = JsValue.str s) ∧
      (∀ s entries, (s, entries) ∈ g →
        entries =
          (dbTwoTeams.evaluations.filter fun e => e.teamName == JsValue.str s).map entryOf)) :=
  ⟨rfl, feedbacks_grouped_by_team envAllOk dbTwoTeams rfl rfl
    (by
      intro e he
      simp only [dbTwoTeams, List.mem_cons, List.not_mem_nil, or_false] at he
      rcases he with rfl | rfl
      · exact ⟨"T1", rfl⟩
      · exact ⟨"T2", rfl⟩)
    (by decide)⟩

example : groupedFeedbacks dbTwoTeams.evaluations =
    Except.ok
      [("T1", [⟨JsValue.str "U1", JsValue.obj [("clarity", JsValue.num 5)],
          JsValue.str "good", 500⟩]),
       ("T2", [⟨JsValue.str "U2", JsValue.obj [("clarity", JsValue.num 3)],
          JsValue.str "fair", 600⟩])] := by decide

example : groupedFeedbacks [storedT1, storedT2,
      ⟨2, JsValue.str "T1", JsValue.str "U3", JsValue.null, JsValue.str "ok", 700⟩] =
    Except.ok
      [("T1", [⟨JsValue.str "U1", JsValue.obj [("clarity", JsValue.num 5)],
          JsValue.str "good", 500⟩,
        ⟨JsValue.str "U3", JsValue.null, JsValue.str "ok", 700⟩]),
       ("T2", [⟨JsValue.str "U2", JsValue.obj [("clarity", JsValue.num 3)],
          JsValue.str "fair", 600⟩])] := by decide

example : groupedFeedbacks [storedT1,
      ⟨1, JsValue.str "toString", JsValue.str "U9", JsValue.null, JsValue.str "x", 800⟩] =
    Except.error JsError.typeError := by decide
